import Mathlib

/-!
Verification of the rate-limiting admission-control core of this repository.

The repository contains three near-duplicate families of rate limiters:

* `src/rate_limiting/token_bucket.py` and `src/rate_limiting/leaky_bucket.py`
  (namespace `RateLimiting` below),
* `src/API BASED PRODUCTS/Question 3/token_bucket_python.py` and
  `leaky_bucket_python.py` (namespace `QuestionThree` below),
* `src/API Project/question3_rate_limiting/leaky_bucket.py`
  (namespace `ApiProject` below).

Each Python class is embedded as a Lean structure, each method as a pure
function from the pre-state (plus the wall-clock reading `now` supplied by
`time.time()`) to its result together with the post-state.  Real-valued
times and token counts are modelled by `ℚ`; Python's `int()` truncation is
`pyInt`; a raised `ValueError` is the `Except.error` branch of a small
error type.  Dictionary registries keyed by client-id strings are modelled
as functions from an opaque key type (`ClientId := ℕ`; only key equality is
ever used by the source) to `Option` of a bucket.
-/

/-- Python's `int()` conversion on a rational: truncation toward zero. -/
def pyInt (q : ℚ) : ℤ := if 0 ≤ q then ⌊q⌋ else ⌈q⌉

/-- Client identifiers are opaque dictionary keys in the source (`str`);
only equality on them is ever used, so they are modelled by `ℕ`. -/
abbrev ClientId := ℕ

/-- The two `ValueError`s raised by the constructors in
`src/rate_limiting/token_bucket.py` / `leaky_bucket.py`. -/
inductive ConfigError where
  | invalidCapacity
  | invalidRate
deriving DecidableEq

namespace RateLimiting

/-- State of `TokenBucket` in `src/rate_limiting/token_bucket.py`. -/
structure TokenBucket where
  capacity : ℚ
  refill_rate : ℚ
  tokens : ℚ
  last_refill : ℚ
deriving DecidableEq

/-- `TokenBucket.__init__`: validates the configuration, then starts with a
full bucket; `last_refill` is the construction-time clock reading. -/
def TokenBucket.init (capacity refill_rate now : ℚ) : Except ConfigError TokenBucket :=
  if capacity ≤ 0 then .error .invalidCapacity
  else if refill_rate ≤ 0 then .error .invalidRate
  else .ok { capacity := capacity, refill_rate := refill_rate,
             tokens := capacity, last_refill := now }

/-- The state produced by a successful `TokenBucket.__init__`. -/
def TokenBucket.mk0 (capacity refill_rate now : ℚ) : TokenBucket :=
  { capacity := capacity, refill_rate := refill_rate,
    tokens := capacity, last_refill := now }

/-- `TokenBucket._refill_tokens`: adds `elapsed * refill_rate` tokens capped
at `capacity`, but only when the amount to add is positive; `last_refill`
is updated only in that case. -/
def TokenBucket.refill_tokens (s : TokenBucket) (now : ℚ) : TokenBucket :=
  let elapsed := now - s.last_refill
  let tokens_to_add := elapsed * s.refill_rate
  if 0 < tokens_to_add then
    { s with tokens := min s.capacity (s.tokens + tokens_to_add), last_refill := now }
  else s

/-- `TokenBucket.consume`: refill, then consume `tokens` if available. -/
def TokenBucket.consume (s : TokenBucket) (tokens now : ℚ) : Bool × TokenBucket :=
  let s1 := s.refill_tokens now
  if tokens ≤ s1.tokens then (true, { s1 with tokens := s1.tokens - tokens })
  else (false, s1)

/-- `TokenBucket.get_available_tokens`: refill, then report the level. -/
def TokenBucket.get_available_tokens (s : TokenBucket) (now : ℚ) : ℚ × TokenBucket :=
  let s1 := s.refill_tokens now
  (s1.tokens, s1)

/-- `TokenBucket.reset`: back to a full bucket. -/
def TokenBucket.reset (s : TokenBucket) (now : ℚ) : TokenBucket :=
  { s with tokens := s.capacity, last_refill := now }

/-- `TokenBucketRateLimiter` wraps a single bucket. -/
structure TokenBucketRateLimiter where
  bucket : TokenBucket
deriving DecidableEq

/-- `TokenBucketRateLimiter.allow_request`: consume one token; on denial the
advisory wait is `(1 - available) / refill_rate`, clamped at `0`.  All the
clock reads inside one call are modelled by the single value `now`. -/
def TokenBucketRateLimiter.allow_request (L : TokenBucketRateLimiter) (now : ℚ) :
    (Bool × Option ℚ) × TokenBucketRateLimiter :=
  let r := L.bucket.consume 1 now
  if r.1 then ((true, none), ⟨r.2⟩)
  else
    let q := r.2.get_available_tokens now
    let wait_time := (1 - q.1) / q.2.refill_rate
    ((false, some (max 0 wait_time)), ⟨q.2⟩)

/-- State of `LeakyBucket` in `src/rate_limiting/leaky_bucket.py`.  The
`deque` holds the admission timestamps of the queued requests. -/
structure LeakyBucket where
  capacity : ℕ
  leak_rate : ℚ
  bucket : List ℚ
  last_leak : ℚ
deriving DecidableEq

/-- `LeakyBucket.__init__`: validates the configuration (the Python
`capacity` is an `int`, so it is taken here as `ℤ`), then starts empty. -/
def LeakyBucket.init (capacity : ℤ) (leak_rate now : ℚ) : Except ConfigError LeakyBucket :=
  if capacity ≤ 0 then .error .invalidCapacity
  else if leak_rate ≤ 0 then .error .invalidRate
  else .ok { capacity := capacity.toNat, leak_rate := leak_rate,
             bucket := [], last_leak := now }

/-- The state produced by a successful `LeakyBucket.__init__`. -/
def LeakyBucket.mk0 (capacity : ℕ) (leak_rate now : ℚ) : LeakyBucket :=
  { capacity := capacity, leak_rate := leak_rate, bucket := [], last_leak := now }

/-- `LeakyBucket._leak_requests`: drop `int(elapsed * leak_rate)` entries
from the front (at most the queue length); `last_leak` moves only when at
least one request was processed. -/
def LeakyBucket.leak_requests (s : LeakyBucket) (now : ℚ) : LeakyBucket :=
  let elapsed := now - s.last_leak
  let requests_to_process := pyInt (elapsed * s.leak_rate)
  if 0 < requests_to_process then
    { s with bucket := s.bucket.drop (min requests_to_process.toNat s.bucket.length),
             last_leak := now }
  else s

/-- `LeakyBucket.add_request`: leak, then append the request timestamp if a
slot is free. -/
def LeakyBucket.add_request (s : LeakyBucket) (now : ℚ) : Bool × LeakyBucket :=
  let s1 := s.leak_requests now
  if s1.bucket.length < s1.capacity then (true, { s1 with bucket := s1.bucket ++ [now] })
  else (false, s1)

/-- `LeakyBucket.get_queue_size`: leak, then report the queue length. -/
def LeakyBucket.get_queue_size (s : LeakyBucket) (now : ℚ) : ℕ × LeakyBucket :=
  let s1 := s.leak_requests now
  (s1.bucket.length, s1)

/-- `LeakyBucket.get_wait_time`: leak, then `0` for an empty queue and
`queueLength / leak_rate` otherwise. -/
def LeakyBucket.get_wait_time (s : LeakyBucket) (now : ℚ) : ℚ × LeakyBucket :=
  let s1 := s.leak_requests now
  if s1.bucket.length = 0 then (0, s1)
  else ((s1.bucket.length : ℚ) / s1.leak_rate, s1)

/-- `LeakyBucket.reset`: clear the queue. -/
def LeakyBucket.reset (s : LeakyBucket) (now : ℚ) : LeakyBucket :=
  { s with bucket := [], last_leak := now }

/-- `LeakyBucketRateLimiter.allow_request`: try to enqueue; on denial report
the bucket's wait time (which leaks again at the same clock reading). -/
def LeakyBucketRateLimiter.allow_request (s : LeakyBucket) (now : ℚ) :
    (Bool × Option ℚ) × LeakyBucket :=
  let r := s.add_request now
  if r.1 then ((true, none), r.2)
  else
    let q := r.2.get_wait_time now
    ((false, some q.1), q.2)

end RateLimiting

namespace QuestionThree

/-- State of `TokenBucket` in
`src/API BASED PRODUCTS/Question 3/token_bucket_python.py`. -/
structure TokenBucket where
  capacity : ℚ
  refill_rate : ℚ
  tokens : ℚ
  last_refill_time : ℚ
deriving DecidableEq

/-- `TokenBucket.__init__` of the Question 3 variant: plain field
assignment, with no validation of `capacity` or `refill_rate`. -/
def TokenBucket.init (capacity refill_rate now : ℚ) : TokenBucket :=
  { capacity := capacity, refill_rate := refill_rate,
    tokens := capacity, last_refill_time := now }

/-- `TokenBucket._refill` of the Question 3 variant: unconditionally sets
`tokens = min(capacity, tokens + elapsed * refill_rate)` and
`last_refill_time = now` — there is no guard on the sign of `elapsed`. -/
def TokenBucket.refill (s : TokenBucket) (now : ℚ) : TokenBucket :=
  let elapsed := now - s.last_refill_time
  let tokens_to_add := elapsed * s.refill_rate
  { s with tokens := min s.capacity (s.tokens + tokens_to_add), last_refill_time := now }

/-- `TokenBucket.consume` of the Question 3 variant. -/
def TokenBucket.consume (s : TokenBucket) (tokens now : ℚ) : Bool × TokenBucket :=
  let s1 := s.refill now
  if tokens ≤ s1.tokens then (true, { s1 with tokens := s1.tokens - tokens })
  else (false, s1)

/-- `TokenBucket.get_available_tokens` of the Question 3 variant. -/
def TokenBucket.get_available_tokens (s : TokenBucket) (now : ℚ) : ℚ × TokenBucket :=
  let s1 := s.refill now
  (s1.tokens, s1)

/-- `TokenBucket.wait_time_for_tokens`: refill, then `0` if enough tokens
are available, else `(tokens - level) / refill_rate`. -/
def TokenBucket.wait_time_for_tokens (s : TokenBucket) (tokens now : ℚ) : ℚ × TokenBucket :=
  let s1 := s.refill now
  if tokens ≤ s1.tokens then (0, s1)
  else ((tokens - s1.tokens) / s1.refill_rate, s1)

/-- `TokenBucketRateLimiter` of the Question 3 variant: one configuration
shared by a dictionary of per-client buckets. -/
structure TokenBucketRateLimiter where
  capacity : ℚ
  refill_rate : ℚ
  buckets : ClientId → Option TokenBucket

/-- The lock-protected check-and-insert of
`TokenBucketRateLimiter.allow_request` followed by the lookup of the
client's bucket: returns the (single) bucket now associated with
`client_id` together with the updated dictionary. -/
def TokenBucketRateLimiter.resolve (L : TokenBucketRateLimiter) (client_id : ClientId)
    (now : ℚ) : TokenBucket × TokenBucketRateLimiter :=
  match L.buckets client_id with
  | some b => (b, L)
  | none =>
    let b := TokenBucket.init L.capacity L.refill_rate now
    (b, { L with buckets := fun k => if k = client_id then some b else L.buckets k })

/-- `TokenBucketRateLimiter.allow_request`: resolve the client's bucket,
consume from it, and on denial compute `wait_time_for_tokens`.  The Python
bucket object is mutated in place inside the dictionary; this is modelled
by writing the post-state back under the same key. -/
def TokenBucketRateLimiter.allow_request (L : TokenBucketRateLimiter) (client_id : ClientId)
    (tokens now : ℚ) : (Bool × Option ℚ) × TokenBucketRateLimiter :=
  let r := L.resolve client_id now
  let cr := r.1.consume tokens now
  if cr.1 then
    ((true, none),
     { r.2 with buckets := fun k => if k = client_id then some cr.2 else r.2.buckets k })
  else
    let wr := cr.2.wait_time_for_tokens tokens now
    ((false, some wr.1),
     { r.2 with buckets := fun k => if k = client_id then some wr.2 else r.2.buckets k })

/-- The dictionary returned by `TokenBucketRateLimiter.get_client_info`. -/
structure TokenClientInfo where
  client_id : ClientId
  tokens_available : ℚ
  capacity : ℚ
  refill_rate : ℚ
deriving DecidableEq

/-- `TokenBucketRateLimiter.get_client_info`: for an unknown client the
default full-bucket view is returned and nothing is inserted; for a known
client the bucket is refilled by `get_available_tokens`. -/
def TokenBucketRateLimiter.get_client_info (L : TokenBucketRateLimiter) (client_id : ClientId)
    (now : ℚ) : TokenClientInfo × TokenBucketRateLimiter :=
  match L.buckets client_id with
  | none =>
    ({ client_id := client_id, tokens_available := L.capacity,
       capacity := L.capacity, refill_rate := L.refill_rate }, L)
  | some b =>
    let q := b.get_available_tokens now
    ({ client_id := client_id, tokens_available := q.1,
       capacity := L.capacity, refill_rate := L.refill_rate },
     { L with buckets := fun k => if k = client_id then some q.2 else L.buckets k })

/-- State of `LeakyBucket` in
`src/API BASED PRODUCTS/Question 3/leaky_bucket_python.py`.  Each queue
entry is a small record in Python; only its admission timestamp is
relevant, so an entry is modelled by that timestamp. -/
structure LeakyBucket where
  capacity : ℕ
  leak_rate : ℚ
  queue : List ℚ
  last_leak_time : ℚ
deriving DecidableEq

/-- `LeakyBucket.__init__` of the Question 3 variant: no validation. -/
def LeakyBucket.init (capacity : ℕ) (leak_rate now : ℚ) : LeakyBucket :=
  { capacity := capacity, leak_rate := leak_rate, queue := [], last_leak_time := now }

/-- `LeakyBucket._leak` of the Question 3 variant: same guarded
truncating-drop as the `rate_limiting` variant. -/
def LeakyBucket.leak (s : LeakyBucket) (now : ℚ) : LeakyBucket :=
  let elapsed := now - s.last_leak_time
  let requests_to_leak := pyInt (elapsed * s.leak_rate)
  if 0 < requests_to_leak then
    { s with queue := s.queue.drop (min requests_to_leak.toNat s.queue.length),
             last_leak_time := now }
  else s

/-- `LeakyBucket.add_request` of the Question 3 variant. -/
def LeakyBucket.add_request (s : LeakyBucket) (now : ℚ) : Bool × LeakyBucket :=
  let s1 := s.leak now
  if s1.queue.length < s1.capacity then (true, { s1 with queue := s1.queue ++ [now] })
  else (false, s1)

/-- `LeakyBucket.get_queue_size` of the Question 3 variant. -/
def LeakyBucket.get_queue_size (s : LeakyBucket) (now : ℚ) : ℕ × LeakyBucket :=
  let s1 := s.leak now
  (s1.queue.length, s1)

/-- `LeakyBucket.get_wait_time` of the Question 3 variant: `0` below
capacity, and otherwise `1 / leak_rate` — the time until one slot frees. -/
def LeakyBucket.get_wait_time (s : LeakyBucket) (now : ℚ) : ℚ × LeakyBucket :=
  let s1 := s.leak now
  if s1.queue.length < s1.capacity then (0, s1)
  else (1 / s1.leak_rate, s1)

/-- `LeakyBucket.is_full` of the Question 3 variant. -/
def LeakyBucket.is_full (s : LeakyBucket) (now : ℚ) : Bool × LeakyBucket :=
  let s1 := s.leak now
  (s1.capacity ≤ s1.queue.length, s1)

/-- `LeakyBucketRateLimiter` of the Question 3 variant. -/
structure LeakyBucketRateLimiter where
  capacity : ℕ
  leak_rate : ℚ
  buckets : ClientId → Option LeakyBucket

/-- The lock-protected check-and-insert of
`LeakyBucketRateLimiter.allow_request` followed by the bucket lookup. -/
def LeakyBucketRateLimiter.resolve (L : LeakyBucketRateLimiter) (client_id : ClientId)
    (now : ℚ) : LeakyBucket × LeakyBucketRateLimiter :=
  match L.buckets client_id with
  | some b => (b, L)
  | none =>
    let b := LeakyBucket.init L.capacity L.leak_rate now
    (b, { L with buckets := fun k => if k = client_id then some b else L.buckets k })

/-- `LeakyBucketRateLimiter.allow_request` of the Question 3 variant. -/
def LeakyBucketRateLimiter.allow_request (L : LeakyBucketRateLimiter) (client_id : ClientId)
    (now : ℚ) : (Bool × Option ℚ) × LeakyBucketRateLimiter :=
  let r := L.resolve client_id now
  let ar := r.1.add_request now
  if ar.1 then
    ((true, none),
     { r.2 with buckets := fun k => if k = client_id then some ar.2 else r.2.buckets k })
  else
    let wr := ar.2.get_wait_time now
    ((false, some wr.1),
     { r.2 with buckets := fun k => if k = client_id then some wr.2 else r.2.buckets k })

/-- The dictionary returned by `LeakyBucketRateLimiter.get_client_info`. -/
structure LeakyClientInfo where
  client_id : ClientId
  queue_size : ℕ
  capacity : ℕ
  leak_rate : ℚ
  is_full : Bool
deriving DecidableEq

/-- `LeakyBucketRateLimiter.get_client_info`: for an unknown client the
default empty-bucket view is returned and nothing is inserted; for a known
client `get_queue_size` and then `is_full` are called on the bucket. -/
def LeakyBucketRateLimiter.get_client_info (L : LeakyBucketRateLimiter) (client_id : ClientId)
    (now : ℚ) : LeakyClientInfo × LeakyBucketRateLimiter :=
  match L.buckets client_id with
  | none =>
    ({ client_id := client_id, queue_size := 0, capacity := L.capacity,
       leak_rate := L.leak_rate, is_full := false }, L)
  | some b =>
    let q := b.get_queue_size now
    let f := q.2.is_full now
    ({ client_id := client_id, queue_size := q.1, capacity := L.capacity,
       leak_rate := L.leak_rate, is_full := f.1 },
     { L with buckets := fun k => if k = client_id then some f.2 else L.buckets k })

end QuestionThree

namespace ApiProject

/-- State of `LeakyBucket` in
`src/API Project/question3_rate_limiting/leaky_bucket.py`. -/
structure LeakyBucket where
  capacity : ℕ
  leak_rate : ℚ
  queue : List ℚ
  last_leak : ℚ
deriving DecidableEq

/-- `LeakyBucket._leak_requests` of the API Project variant: the same
guarded truncating-drop as the `rate_limiting` variant. -/
def LeakyBucket.leak_requests (s : LeakyBucket) (now : ℚ) : LeakyBucket :=
  let elapsed := now - s.last_leak
  let requests_to_process := pyInt (elapsed * s.leak_rate)
  if 0 < requests_to_process then
    { s with queue := s.queue.drop (min requests_to_process.toNat s.queue.length),
             last_leak := now }
  else s

/-- `LeakyBucket.add_request` of the API Project variant. -/
def LeakyBucket.add_request (s : LeakyBucket) (now : ℚ) : Bool × LeakyBucket :=
  let s1 := s.leak_requests now
  if s1.queue.length < s1.capacity then (true, { s1 with queue := s1.queue ++ [now] })
  else (false, s1)

/-- `LeakyBucket.get_wait_time` of the API Project variant: leak, then `0`
below capacity, else (for a nonempty queue) `max 0 (queueLength / leak_rate)`. -/
def LeakyBucket.get_wait_time (s : LeakyBucket) (now : ℚ) : ℚ × LeakyBucket :=
  let s1 := s.leak_requests now
  if s1.queue.length < s1.capacity then (0, s1)
  else if s1.queue.isEmpty then (0, s1)
  else (max 0 ((s1.queue.length : ℚ) / s1.leak_rate), s1)

end ApiProject

namespace RateLimiting

/-- A public operation on the `rate_limiting` `TokenBucket`, tagged with the
clock reading `time.time()` observed during the call. -/
inductive TBOp where
  | consumeOp : ℚ → ℚ → TBOp
  | statusOp : ℚ → TBOp
  | allowOp : ℚ → TBOp
  | resetOp : ℚ → TBOp

/-- Whether the cost of a `consume` operation is positive (the other
operations carry no cost). -/
def TBOp.costPos : TBOp → Bool
  | .consumeOp c _ => decide (0 < c)
  | _ => true

/-- The state transformation performed by one public `TokenBucket` call. -/
def TBOp.apply (op : TBOp) (s : TokenBucket) : TokenBucket :=
  match op with
  | .consumeOp c now => (s.consume c now).2
  | .statusOp now => (s.get_available_tokens now).2
  | .allowOp now => (TokenBucketRateLimiter.allow_request ⟨s⟩ now).2.bucket
  | .resetOp now => s.reset now

/-- Run a sequence of public operations against a `TokenBucket`. -/
def TokenBucket.run (s : TokenBucket) (ops : List TBOp) : TokenBucket :=
  ops.foldl (fun s op => op.apply s) s

/-- The capacity-bound invariant of the token bucket. -/
def TokenBucket.Inv (s : TokenBucket) : Prop :=
  0 ≤ s.tokens ∧ s.tokens ≤ s.capacity

instance : DecidablePred TokenBucket.Inv := fun s =>
  inferInstanceAs (Decidable (0 ≤ s.tokens ∧ s.tokens ≤ s.capacity))

/-- A public operation on the `rate_limiting` `LeakyBucket`, tagged with
the clock reading observed during the call. -/
inductive LBOp where
  | addOp : ℚ → LBOp
  | sizeOp : ℚ → LBOp
  | waitOp : ℚ → LBOp
  | allowOp : ℚ → LBOp
  | resetOp : ℚ → LBOp

/-- The state transformation performed by one public `LeakyBucket` call. -/
def LBOp.apply (op : LBOp) (s : LeakyBucket) : LeakyBucket :=
  match op with
  | .addOp now => (s.add_request now).2
  | .sizeOp now => (s.get_queue_size now).2
  | .waitOp now => (s.get_wait_time now).2
  | .allowOp now => (LeakyBucketRateLimiter.allow_request s now).2
  | .resetOp now => s.reset now

/-- Run a sequence of public operations against a `LeakyBucket`. -/
def LeakyBucket.run (s : LeakyBucket) (ops : List LBOp) : LeakyBucket :=
  ops.foldl (fun s op => op.apply s) s

/-- The capacity-bound invariant of the leaky bucket: the queue never
exceeds `capacity` (its length is a natural number, hence nonnegative). -/
def LeakyBucket.Inv (s : LeakyBucket) : Prop :=
  s.bucket.length ≤ s.capacity

instance : DecidablePred LeakyBucket.Inv := fun s =>
  inferInstanceAs (Decidable (s.bucket.length ≤ s.capacity))

/-- Repeated `allow_request` calls against the single-bucket
`rate_limiting` limiter, all observing the same clock reading (the calls
are issued back to back with no delay). -/
def TokenBucketRateLimiter.allowTrace (now : ℚ) :
    TokenBucketRateLimiter → ℕ → List (Bool × Option ℚ) × TokenBucketRateLimiter
  | L, 0 => ([], L)
  | L, n + 1 =>
    let r := L.allow_request now
    let rest := allowTrace now r.2 n
    (r.1 :: rest.1, rest.2)

end RateLimiting

namespace QuestionThree

/-- Repeated `allow_request` calls for one client against the Question 3
registry-based limiter, all observing the same clock reading. -/
def TokenBucketRateLimiter.allowTrace (client_id : ClientId) (tokens now : ℚ) :
    TokenBucketRateLimiter → ℕ → List (Bool × Option ℚ) × TokenBucketRateLimiter
  | L, 0 => ([], L)
  | L, n + 1 =>
    let r := L.allow_request client_id tokens now
    let rest := allowTrace client_id tokens now r.2 n
    (r.1 :: rest.1, rest.2)

/-- The number of granted requests over `n` sequential `consume` calls on
one shared bucket (the per-bucket lock serializes concurrent callers). -/
def TokenBucket.consumeCount (tokens now : ℚ) : TokenBucket → ℕ → ℕ × TokenBucket
  | b, 0 => (0, b)
  | b, n + 1 =>
    let r := b.consume tokens now
    let rest := consumeCount tokens now r.2 n
    ((if r.1 then 1 else 0) + rest.1, rest.2)

end QuestionThree

/-- Whether a construction attempt raised `ValueError` (modelled by the
`Except.error` branch). -/
def exceptIsError {α : Type} : Except ConfigError α → Bool
  | .error _ => true
  | .ok _ => false

namespace RateLimiting

theorem TokenBucket.refill_tokens_inv {s : TokenBucket} (h : s.Inv) (now : ℚ) :
    (s.refill_tokens now).Inv := by
  obtain ⟨h0, hc⟩ := h
  unfold TokenBucket.refill_tokens
  dsimp only
  split
  · exact ⟨le_min (le_trans h0 hc) (by linarith), min_le_left _ _⟩
  · exact ⟨h0, hc⟩

theorem TokenBucket.consume_inv {s : TokenBucket} (h : s.Inv) {c : ℚ} (hc : 0 ≤ c)
    (now : ℚ) : (s.consume c now).2.Inv := by
  have h1 := s.refill_tokens_inv h now
  unfold TokenBucket.consume
  dsimp only
  generalize s.refill_tokens now = s1 at h1 ⊢
  obtain ⟨h0, hcap⟩ := h1
  split
  · rename_i hle
    exact ⟨show (0:ℚ) ≤ s1.tokens - c by linarith,
           show s1.tokens - c ≤ s1.capacity by linarith⟩
  · exact ⟨h0, hcap⟩

theorem TokenBucket.get_available_tokens_inv {s : TokenBucket} (h : s.Inv) (now : ℚ) :
    (s.get_available_tokens now).2.Inv :=
  s.refill_tokens_inv h now

theorem TokenBucket.reset_inv_tb {s : TokenBucket} (h : s.Inv) (now : ℚ) :
    (s.reset now).Inv :=
  ⟨le_trans h.1 h.2, le_refl _⟩

theorem TokenBucketRateLimiter.allow_request_inv_tb {s : TokenBucket} (h : s.Inv) (now : ℚ) :
    (TokenBucketRateLimiter.allow_request ⟨s⟩ now).2.bucket.Inv := by
  have h1 : (s.consume 1 now).2.Inv := s.consume_inv h (by norm_num) now
  unfold TokenBucketRateLimiter.allow_request
  dsimp only
  split
  · exact h1
  · exact TokenBucket.get_available_tokens_inv h1 now

theorem TBOp.apply_inv_tb {s : TokenBucket} (h : s.Inv) {op : TBOp}
    (hop : op.costPos = true) : (op.apply s).Inv := by
  cases op with
  | consumeOp c now =>
    have hc : 0 < c := by simpa [TBOp.costPos] using hop
    exact s.consume_inv h hc.le now
  | statusOp now => exact s.get_available_tokens_inv h now
  | allowOp now => exact TokenBucketRateLimiter.allow_request_inv_tb h now
  | resetOp now => exact s.reset_inv_tb h now

theorem TokenBucket.run_inv_tb {s : TokenBucket} (h : s.Inv) (ops : List TBOp)
    (hc : ∀ op ∈ ops, op.costPos = true) : (s.run ops).Inv := by
  induction ops generalizing s with
  | nil => exact h
  | cons op ops ih =>
    have h1 : (op.apply s).Inv := op.apply_inv_tb h (hc op (List.mem_cons_self op ops))
    have h2 := ih h1 (fun o ho => hc o (List.mem_cons_of_mem _ ho))
    simpa [TokenBucket.run] using h2

theorem LeakyBucket.leak_requests_inv {s : LeakyBucket} (h : s.Inv) (now : ℚ) :
    (s.leak_requests now).Inv := by
  have h' : s.bucket.length ≤ s.capacity := h
  unfold LeakyBucket.leak_requests
  dsimp only
  split
  · simp only [LeakyBucket.Inv, List.length_drop]
    omega
  · exact h

theorem LeakyBucket.add_request_inv {s : LeakyBucket} (h : s.Inv) (now : ℚ) :
    (s.add_request now).2.Inv := by
  have h1 := s.leak_requests_inv h now
  unfold LeakyBucket.add_request
  dsimp only
  generalize s.leak_requests now = s1 at h1 ⊢
  split
  · rename_i hlt
    show (s1.bucket ++ [now]).length ≤ s1.capacity
    simp only [List.length_append, List.length_cons, List.length_nil]
    omega
  · exact h1

theorem LeakyBucket.get_queue_size_inv {s : LeakyBucket} (h : s.Inv) (now : ℚ) :
    (s.get_queue_size now).2.Inv :=
  s.leak_requests_inv h now

theorem LeakyBucket.get_wait_time_inv {s : LeakyBucket} (h : s.Inv) (now : ℚ) :
    (s.get_wait_time now).2.Inv := by
  have h1 := s.leak_requests_inv h now
  unfold LeakyBucket.get_wait_time
  dsimp only
  split <;> exact h1

theorem LeakyBucket.reset_inv_lb {s : LeakyBucket} (_ : s.Inv) (now : ℚ) :
    (s.reset now).Inv := by
  simp [LeakyBucket.Inv, LeakyBucket.reset]

theorem LeakyBucketRateLimiter.allow_request_inv_lb {s : LeakyBucket} (h : s.Inv) (now : ℚ) :
    (LeakyBucketRateLimiter.allow_request s now).2.Inv := by
  have h1 := s.add_request_inv h now
  unfold LeakyBucketRateLimiter.allow_request
  dsimp only
  split
  · exact h1
  · exact LeakyBucket.get_wait_time_inv h1 now

theorem LBOp.apply_inv_lb {s : LeakyBucket} (h : s.Inv) (op : LBOp) : (op.apply s).Inv := by
  cases op with
  | addOp now => exact s.add_request_inv h now
  | sizeOp now => exact s.get_queue_size_inv h now
  | waitOp now => exact s.get_wait_time_inv h now
  | allowOp now => exact LeakyBucketRateLimiter.allow_request_inv_lb h now
  | resetOp now => exact s.reset_inv_lb h now

theorem LeakyBucket.run_inv_lb {s : LeakyBucket} (h : s.Inv) (ops : List LBOp) :
    (s.run ops).Inv := by
  induction ops generalizing s with
  | nil => exact h
  | cons op ops ih =>
    have h1 := LBOp.apply_inv_lb h op
    simpa [LeakyBucket.run] using ih h1

end RateLimiting

theorem RateLimiting.LeakyBucket.leak_requests_leak_rate (s : RateLimiting.LeakyBucket)
    (now : ℚ) : (s.leak_requests now).leak_rate = s.leak_rate := by
  unfold RateLimiting.LeakyBucket.leak_requests
  dsimp only
  split <;> rfl

theorem QuestionThree.LeakyBucket.leak_capacity (s : QuestionThree.LeakyBucket)
    (now : ℚ) : (s.leak now).capacity = s.capacity := by
  unfold QuestionThree.LeakyBucket.leak
  dsimp only
  split <;> rfl

theorem QuestionThree.LeakyBucket.leak_leak_rate (s : QuestionThree.LeakyBucket)
    (now : ℚ) : (s.leak now).leak_rate = s.leak_rate := by
  unfold QuestionThree.LeakyBucket.leak
  dsimp only
  split <;> rfl

theorem ApiProject.LeakyBucket.leak_requests_capacity (s : ApiProject.LeakyBucket)
    (now : ℚ) : (s.leak_requests now).capacity = s.capacity := by
  unfold ApiProject.LeakyBucket.leak_requests
  dsimp only
  split <;> rfl

theorem ApiProject.LeakyBucket.leak_requests_leak_rate_ap (s : ApiProject.LeakyBucket)
    (now : ℚ) : (s.leak_requests now).leak_rate = s.leak_rate := by
  unfold ApiProject.LeakyBucket.leak_requests
  dsimp only
  split <;> rfl

/-- C1: over every sequence of public operations (`consume`/`add_request`,
`get_available_tokens`/`get_queue_size`, wait-time queries via
`allow_request`/`get_wait_time`, `reset`) in which every consume cost is
positive, the `rate_limiting` `TokenBucket` satisfies
`0 ≤ tokens ≤ capacity` and the `rate_limiting` `LeakyBucket` satisfies
`0 ≤ queueLength ≤ capacity` (queue lengths are naturals, so the lower
bound is intrinsic).  The operation lists range over all finite sequences,
so every prefix — every observation point before and after each
operation — is itself an instance of this statement. -/
theorem C1_capacity_bound (cap rate t0 : ℚ) (lcap : ℕ) (lrate lt0 : ℚ)
    (tops : List RateLimiting.TBOp) (lops : List RateLimiting.LBOp)
    (hcap : 0 < cap) (hcost : ∀ op ∈ tops, op.costPos = true) :
    ((RateLimiting.TokenBucket.mk0 cap rate t0).run tops).Inv ∧
    ((RateLimiting.LeakyBucket.mk0 lcap lrate lt0).run lops).Inv :=
  ⟨RateLimiting.TokenBucket.run_inv_tb ⟨hcap.le, le_refl cap⟩ tops hcost,
   RateLimiting.LeakyBucket.run_inv_lb
     (show (RateLimiting.LeakyBucket.mk0 lcap lrate lt0).Inv from Nat.zero_le lcap) lops⟩

/-- C1 witness: a concrete run with a successful consume, an over-large
consume, status and wait-time queries, allow calls and a reset, on both
bucket kinds. -/
theorem C1_capacity_bound_witness :
    ((RateLimiting.TokenBucket.mk0 10 2 0).run
      [RateLimiting.TBOp.consumeOp 4 0, RateLimiting.TBOp.statusOp 0,
       RateLimiting.TBOp.consumeOp 20 1, RateLimiting.TBOp.allowOp 1,
       RateLimiting.TBOp.resetOp 2, RateLimiting.TBOp.consumeOp 10 2]).Inv ∧
    ((RateLimiting.LeakyBucket.mk0 3 2 0).run
      [RateLimiting.LBOp.addOp 0, RateLimiting.LBOp.addOp 0, RateLimiting.LBOp.addOp 0,
       RateLimiting.LBOp.allowOp 0, RateLimiting.LBOp.waitOp 0, RateLimiting.LBOp.sizeOp 1,
       RateLimiting.LBOp.resetOp 2]).Inv :=
  C1_capacity_bound 10 2 0 3 2 0
    [RateLimiting.TBOp.consumeOp 4 0, RateLimiting.TBOp.statusOp 0,
     RateLimiting.TBOp.consumeOp 20 1, RateLimiting.TBOp.allowOp 1,
     RateLimiting.TBOp.resetOp 2, RateLimiting.TBOp.consumeOp 10 2]
    [RateLimiting.LBOp.addOp 0, RateLimiting.LBOp.addOp 0, RateLimiting.LBOp.addOp 0,
     RateLimiting.LBOp.allowOp 0, RateLimiting.LBOp.waitOp 0, RateLimiting.LBOp.sizeOp 1,
     RateLimiting.LBOp.resetOp 2]
    (by norm_num) (by decide)

/-- C2: for every bucket state and cost > 0, `consume` first advances the
bucket (`_refill_tokens` in the `rate_limiting` variant, `_refill` in the
Question 3 variant); if the advanced level covers the cost it subtracts
exactly the cost and allows, otherwise it denies and leaves the state
exactly as the advance left it.  Stated for both `TokenBucket` variants. -/
theorem C2_tryConsume_effect (s : RateLimiting.TokenBucket) (b : QuestionThree.TokenBucket)
    (c now : ℚ) (_hc : 0 < c) :
    (((s.consume c now).1 = true ↔ c ≤ (s.refill_tokens now).tokens) ∧
     ((s.consume c now).1 = true →
        (s.consume c now).2 =
          { s.refill_tokens now with tokens := (s.refill_tokens now).tokens - c }) ∧
     ((s.consume c now).1 = false → (s.consume c now).2 = s.refill_tokens now)) ∧
    (((b.consume c now).1 = true ↔ c ≤ (b.refill now).tokens) ∧
     ((b.consume c now).1 = true →
        (b.consume c now).2 =
          { b.refill now with tokens := (b.refill now).tokens - c }) ∧
     ((b.consume c now).1 = false → (b.consume c now).2 = b.refill now)) := by
  constructor
  · unfold RateLimiting.TokenBucket.consume
    dsimp only
    by_cases hle : c ≤ (s.refill_tokens now).tokens <;> simp [hle]
  · unfold QuestionThree.TokenBucket.consume
    dsimp only
    by_cases hle : c ≤ (b.refill now).tokens <;> simp [hle]

/-- C2 witness: a fresh bucket (capacity 2, rate 1, constructed at time 0)
and a consume of cost 1 at time 0, for both variants. -/
theorem C2_tryConsume_effect_witness :
    ((((RateLimiting.TokenBucket.mk0 2 1 0).consume 1 0).1 = true ↔
        1 ≤ ((RateLimiting.TokenBucket.mk0 2 1 0).refill_tokens 0).tokens) ∧
     (((RateLimiting.TokenBucket.mk0 2 1 0).consume 1 0).1 = true →
        ((RateLimiting.TokenBucket.mk0 2 1 0).consume 1 0).2 =
          { (RateLimiting.TokenBucket.mk0 2 1 0).refill_tokens 0 with
            tokens := ((RateLimiting.TokenBucket.mk0 2 1 0).refill_tokens 0).tokens - 1 }) ∧
     (((RateLimiting.TokenBucket.mk0 2 1 0).consume 1 0).1 = false →
        ((RateLimiting.TokenBucket.mk0 2 1 0).consume 1 0).2 =
          (RateLimiting.TokenBucket.mk0 2 1 0).refill_tokens 0)) ∧
    ((((QuestionThree.TokenBucket.init 2 1 0).consume 1 0).1 = true ↔
        1 ≤ ((QuestionThree.TokenBucket.init 2 1 0).refill 0).tokens) ∧
     (((QuestionThree.TokenBucket.init 2 1 0).consume 1 0).1 = true →
        ((QuestionThree.TokenBucket.init 2 1 0).consume 1 0).2 =
          { (QuestionThree.TokenBucket.init 2 1 0).refill 0 with
            tokens := ((QuestionThree.TokenBucket.init 2 1 0).refill 0).tokens - 1 }) ∧
     (((QuestionThree.TokenBucket.init 2 1 0).consume 1 0).1 = false →
        ((QuestionThree.TokenBucket.init 2 1 0).consume 1 0).2 =
          (QuestionThree.TokenBucket.init 2 1 0).refill 0)) :=
  C2_tryConsume_effect (RateLimiting.TokenBucket.mk0 2 1 0)
    (QuestionThree.TokenBucket.init 2 1 0) 1 0 (by norm_num)

set_option maxRecDepth 4000 in
/-- C3 counterexample: with capacity 10 and rate 2, twelve immediate
`allow()` calls against the `rate_limiting` limiter leave the 12th call
with `retryAfter = 1/2`, not ≈ 1.0 s as the claim states (a denied call
does not consume tokens, so the estimate does not grow from the 11th to
the 12th call); `1/2` is not within any reasonable tolerance of `1`. -/
theorem C3_counterexample :
    (RateLimiting.TokenBucketRateLimiter.allowTrace 0
        ⟨RateLimiting.TokenBucket.mk0 10 2 0⟩ 12).1.getLast? =
      some (false, some (1 / 2)) ∧ (1 : ℚ) / 2 < 3 / 4 := by
  constructor
  · with_unfolding_all rfl
  · norm_num

/-- C3 amended: with capacity 10 and rate 2, twelve immediate `allow()`
calls yield `allowed = true` for the first 10 and `allowed = false` with
`retryAfter = 1/2` s for both the 11th and the 12th (denials do not mutate
the level, so the two estimates coincide).  This holds for the
`rate_limiting` single-bucket limiter and for the Question 3 registry
limiter (fresh client 7, cost 1). -/
theorem C3_twelve_immediate_calls :
    (RateLimiting.TokenBucketRateLimiter.allowTrace 0
        ⟨RateLimiting.TokenBucket.mk0 10 2 0⟩ 12).1 =
      List.replicate 10 (true, none) ++ [(false, some (1 / 2)), (false, some (1 / 2))] ∧
    (QuestionThree.TokenBucketRateLimiter.allowTrace 7 1 0 ⟨10, 2, fun _ => none⟩ 12).1 =
      List.replicate 10 (true, none) ++ [(false, some (1 / 2)), (false, some (1 / 2))] := by
  constructor <;> with_unfolding_all rfl

/-- C4 counterexample: a request of cost 100 against a fresh Question 3
bucket of capacity 10 and rate 2 is denied with the finite retry-after
`(100 − 10) / 2 = 45` seconds; the code has no `CostExceedsCapacity`
condition at all, so the denial is not a distinct permanent-for-that-cost
signal, contradicting the claim. -/
theorem C4_counterexample :
    (QuestionThree.TokenBucketRateLimiter.allow_request ⟨10, 2, fun _ => none⟩ 3 100 0).1 =
      (false, some 45) := by
  with_unfolding_all rfl

/-- C4 amended: for every Question 3 `TokenBucket` state and every cost
exceeding the capacity the request is denied (the refill caps the level at
`capacity`, so the level can never cover the cost), but the denial is
surfaced as the finite positive retry-after `(cost − level) / refill_rate`
computed by `wait_time_for_tokens`, not as a distinct `CostExceedsCapacity`
condition — no such condition exists in the code. -/
theorem C4_cost_exceeds_capacity (b : QuestionThree.TokenBucket) (c now : ℚ)
    (hc : b.capacity < c) (hr : 0 < b.refill_rate) :
    (b.consume c now).1 = false ∧
    ((b.consume c now).2.wait_time_for_tokens c now).1 =
      (c - ((b.consume c now).2.refill now).tokens) / b.refill_rate ∧
    0 < ((b.consume c now).2.wait_time_for_tokens c now).1 := by
  have h1 : (b.refill now).tokens ≤ b.capacity := min_le_left _ _
  have hnc : ¬ c ≤ (b.refill now).tokens := not_le.mpr (lt_of_le_of_lt h1 hc)
  have hcons : b.consume c now = (false, b.refill now) := by
    unfold QuestionThree.TokenBucket.consume
    dsimp only
    rw [if_neg hnc]
  rw [hcons]
  have h2 : ((b.refill now).refill now).tokens = (b.refill now).tokens := by
    show min (b.refill now).capacity
        ((b.refill now).tokens +
          (now - (b.refill now).last_refill_time) * (b.refill now).refill_rate) =
      (b.refill now).tokens
    have hl : (b.refill now).last_refill_time = now := rfl
    rw [hl, sub_self, zero_mul, add_zero]
    exact min_eq_right h1
  have hnc2 : ¬ c ≤ ((b.refill now).refill now).tokens := by rw [h2]; exact hnc
  have hwait : (b.refill now).wait_time_for_tokens c now =
      ((c - ((b.refill now).refill now).tokens) / ((b.refill now).refill now).refill_rate,
       (b.refill now).refill now) := by
    unfold QuestionThree.TokenBucket.wait_time_for_tokens
    dsimp only
    rw [if_neg hnc2]
  have h3 : ((b.refill now).refill now).refill_rate = b.refill_rate := rfl
  refine ⟨rfl, ?_, ?_⟩
  · show ((b.refill now).wait_time_for_tokens c now).1 =
      (c - ((b.refill now).refill now).tokens) / b.refill_rate
    rw [hwait, h3]
  · show 0 < ((b.refill now).wait_time_for_tokens c now).1
    rw [hwait]
    dsimp only
    rw [h3, h2]
    exact div_pos (by linarith [lt_of_le_of_lt h1 hc]) hr

/-- C4 witness: the fresh bucket of capacity 10 and rate 2 with a request
of cost 100 at time 0. -/
theorem C4_cost_exceeds_capacity_witness :
    (((QuestionThree.TokenBucket.init 10 2 0).consume 100 0).1 = false) ∧
    ((((QuestionThree.TokenBucket.init 10 2 0).consume 100 0).2.wait_time_for_tokens 100 0).1 =
      (100 - ((((QuestionThree.TokenBucket.init 10 2 0).consume 100 0).2.refill 0)).tokens) /
        (QuestionThree.TokenBucket.init 10 2 0).refill_rate) ∧
    0 < (((QuestionThree.TokenBucket.init 10 2 0).consume 100 0).2.wait_time_for_tokens 100 0).1 :=
  C4_cost_exceeds_capacity (QuestionThree.TokenBucket.init 10 2 0) 100 0
    (by norm_num [QuestionThree.TokenBucket.init]) (by norm_num [QuestionThree.TokenBucket.init])

/-- C5 counterexample: a reachable `rate_limiting` `LeakyBucket` state
(capacity 5, rate 2, three requests admitted at time 0) has, after the
advance, queue length 3 < 5, yet `get_wait_time` returns `3/2`, not the
`0` the claim requires for `queueLength < capacity` (that variant returns
`queueLength / rate` whenever the queue is nonempty). -/
theorem C5_counterexample :
    ((((RateLimiting.LeakyBucket.mk0 5 2 0).run
        [RateLimiting.LBOp.addOp 0, RateLimiting.LBOp.addOp 0,
         RateLimiting.LBOp.addOp 0]).get_wait_time 0).1 = 3 / 2) ∧
    ((((RateLimiting.LeakyBucket.mk0 5 2 0).run
        [RateLimiting.LBOp.addOp 0, RateLimiting.LBOp.addOp 0,
         RateLimiting.LBOp.addOp 0]).leak_requests 0).bucket.length < 5) ∧
    (3 : ℚ) / 2 ≠ 0 := by
  refine ⟨by with_unfolding_all rfl, ?_, by norm_num⟩
  have h : ((((RateLimiting.LeakyBucket.mk0 5 2 0).run
      [RateLimiting.LBOp.addOp 0, RateLimiting.LBOp.addOp 0,
       RateLimiting.LBOp.addOp 0]).leak_requests 0).bucket.length) = 3 := by
    with_unfolding_all rfl
  rw [h]
  norm_num

/-- C5 amended: the three `get_wait_time` variants disagree, and only the
API Project variant matches the claim.  After advancing: the API Project
variant returns `0` when `queueLength < capacity` and `queueLength / rate`
when full (given `rate > 0`); the `rate_limiting` variant returns `0` only
for an empty queue and `queueLength / rate` for any nonempty queue, full
or not; the Question 3 variant returns `0` below capacity but `1 / rate`
(not `queueLength / rate`) when full. -/
theorem C5_wait_time_variants (s : RateLimiting.LeakyBucket) (q : QuestionThree.LeakyBucket)
    (a : ApiProject.LeakyBucket) (now : ℚ) (ha : 0 < a.leak_rate) :
    (s.get_wait_time now).1 =
      (if (s.leak_requests now).bucket.length = 0 then 0
       else ((s.leak_requests now).bucket.length : ℚ) / s.leak_rate) ∧
    (q.get_wait_time now).1 =
      (if (q.leak now).queue.length < q.capacity then 0 else 1 / q.leak_rate) ∧
    (a.get_wait_time now).1 =
      (if (a.leak_requests now).queue.length < a.capacity then 0
       else ((a.leak_requests now).queue.length : ℚ) / a.leak_rate) := by
  refine ⟨?_, ?_, ?_⟩
  · have hr1 := RateLimiting.LeakyBucket.leak_requests_leak_rate s now
    unfold RateLimiting.LeakyBucket.get_wait_time
    dsimp only
    simp only [hr1]
    split <;> rfl
  · have hcap := QuestionThree.LeakyBucket.leak_capacity q now
    have hrate := QuestionThree.LeakyBucket.leak_leak_rate q now
    unfold QuestionThree.LeakyBucket.get_wait_time
    dsimp only
    simp only [hcap, hrate]
    split <;> rfl
  · have hcap := ApiProject.LeakyBucket.leak_requests_capacity a now
    have hrate := ApiProject.LeakyBucket.leak_requests_leak_rate_ap a now
    unfold ApiProject.LeakyBucket.get_wait_time
    dsimp only
    simp only [hcap, hrate]
    split
    · rfl
    · split
      · rename_i hemp
        have h0 : (a.leak_requests now).queue.length = 0 := by
          simpa [List.isEmpty_iff] using hemp
        rw [h0]
        simp
      · rename_i hnemp
        show max 0 (((a.leak_requests now).queue.length : ℚ) / a.leak_rate) =
          ((a.leak_requests now).queue.length : ℚ) / a.leak_rate
        exact max_eq_right (div_nonneg (Nat.cast_nonneg _) ha.le)

/-- C5 witness: concrete states for the three variants — the
`rate_limiting` bucket holds 3 of 5 requests, the Question 3 and API
Project buckets are full at 2 of 2 — all queried at time 0. -/
theorem C5_wait_time_variants_witness :
    (((⟨5, 2, [0, 0, 0], 0⟩ : RateLimiting.LeakyBucket).get_wait_time 0).1 =
      (if ((⟨5, 2, [0, 0, 0], 0⟩ : RateLimiting.LeakyBucket).leak_requests 0).bucket.length = 0
       then 0
       else (((⟨5, 2, [0, 0, 0], 0⟩ : RateLimiting.LeakyBucket).leak_requests 0).bucket.length : ℚ) / 2)) ∧
    (((⟨2, 2, [0, 0], 0⟩ : QuestionThree.LeakyBucket).get_wait_time 0).1 =
      (if ((⟨2, 2, [0, 0], 0⟩ : QuestionThree.LeakyBucket).leak 0).queue.length < 2
       then 0 else 1 / 2)) ∧
    (((⟨2, 2, [0, 0], 0⟩ : ApiProject.LeakyBucket).get_wait_time 0).1 =
      (if ((⟨2, 2, [0, 0], 0⟩ : ApiProject.LeakyBucket).leak_requests 0).queue.length < 2
       then 0
       else (((⟨2, 2, [0, 0], 0⟩ : ApiProject.LeakyBucket).leak_requests 0).queue.length : ℚ) / 2)) :=
  C5_wait_time_variants ⟨5, 2, [0, 0, 0], 0⟩ ⟨2, 2, [0, 0], 0⟩ ⟨2, 2, [0, 0], 0⟩ 0 (by norm_num)

/-- C6: at the state (capacity 10, rate 2, tokens 10, last refill at time
100), an advance observed at time 99 — a clock regression — lowers the
Question 3 bucket's level from 10 to 8, because `_refill` applies the
negative `elapsed * refill_rate` unguarded; the `rate_limiting`
`_refill_tokens` on the same state is a no-op, exactly as the claim
requires. -/
theorem C6_clock_regression_applied :
    ((QuestionThree.TokenBucket.init 10 2 100).refill 99).tokens = 8 ∧
    ((QuestionThree.TokenBucket.init 10 2 100).refill 99).tokens <
      (QuestionThree.TokenBucket.init 10 2 100).tokens ∧
    (RateLimiting.TokenBucket.mk0 10 2 100).refill_tokens 99 =
      RateLimiting.TokenBucket.mk0 10 2 100 := by
  refine ⟨by with_unfolding_all rfl, ?_, by with_unfolding_all rfl⟩
  have h8 : ((QuestionThree.TokenBucket.init 10 2 100).refill 99).tokens = 8 := by
    with_unfolding_all rfl
  have h10 : (QuestionThree.TokenBucket.init 10 2 100).tokens = 10 := rfl
  rw [h8, h10]
  norm_num

/-- C7 counterexample: the Question 3 `TokenBucket.__init__` performs no
validation: constructing it with `capacity = 0` and `refill_rate = -1`
raises nothing and produces a bucket instance, contradicting the claim
that every such construction fails fast with a `ValueError` and produces
no instance. -/
theorem C7_counterexample :
    QuestionThree.TokenBucket.init 0 (-1) 0 =
      { capacity := 0, refill_rate := -1, tokens := 0, last_refill_time := 0 } := rfl

/-- C7 amended: the `rate_limiting` `TokenBucket` and `LeakyBucket`
constructors reject `capacity ≤ 0` or `rate ≤ 0` with a `ValueError`
(`Except.error` here) and produce no bucket, with no silent clamping; the
Question 3 `TokenBucket` constructor performs no validation and produces
an instance carrying the given configuration unchanged. -/
theorem C7_invalid_configuration (c r now : ℚ) (lc : ℤ) (lr lnow : ℚ)
    (h1 : c ≤ 0 ∨ r ≤ 0) (h2 : lc ≤ 0 ∨ lr ≤ 0) :
    exceptIsError (RateLimiting.TokenBucket.init c r now) = true ∧
    exceptIsError (RateLimiting.LeakyBucket.init lc lr lnow) = true ∧
    (QuestionThree.TokenBucket.init c r now).capacity = c ∧
    (QuestionThree.TokenBucket.init c r now).refill_rate = r := by
  refine ⟨?_, ?_, rfl, rfl⟩
  · unfold RateLimiting.TokenBucket.init
    by_cases hcap : c ≤ 0
    · rw [if_pos hcap]
      rfl
    · have hr : r ≤ 0 := h1.resolve_left hcap
      rw [if_neg hcap, if_pos hr]
      rfl
  · unfold RateLimiting.LeakyBucket.init
    by_cases hcap : lc ≤ 0
    · rw [if_pos hcap]
      rfl
    · have hr : lr ≤ 0 := h2.resolve_left hcap
      rw [if_neg hcap, if_pos hr]
      rfl

/-- C7 witness: `capacity = 0`, `rate = -1` for both `rate_limiting`
constructors, and the same configuration accepted unchecked by the
Question 3 constructor. -/
theorem C7_invalid_configuration_witness :
    exceptIsError (RateLimiting.TokenBucket.init 0 (-1) 0) = true ∧
    exceptIsError (RateLimiting.LeakyBucket.init 0 (-1) 0) = true ∧
    (QuestionThree.TokenBucket.init 0 (-1) 0).capacity = 0 ∧
    (QuestionThree.TokenBucket.init 0 (-1) 0).refill_rate = -1 :=
  C7_invalid_configuration 0 (-1) 0 0 (-1) 0 (Or.inl (by norm_num)) (Or.inl (by norm_num))

/-- C8: an `allow_request` call for client `a` (allowed or denied, and
whether or not `a` already has a bucket) leaves the registry entry of
every other client `b` — its bucket state, queue contents and last-update
timestamp — completely unchanged, for both Question 3 multi-client
limiters. -/
theorem C8_per_client_isolation (L : QuestionThree.TokenBucketRateLimiter)
    (M : QuestionThree.LeakyBucketRateLimiter) (a b : ClientId) (c now mnow : ℚ)
    (hab : a ≠ b) :
    (L.allow_request a c now).2.buckets b = L.buckets b ∧
    (M.allow_request a mnow).2.buckets b = M.buckets b := by
  have hba : ¬ b = a := fun hbe => hab hbe.symm
  constructor
  · unfold QuestionThree.TokenBucketRateLimiter.allow_request
      QuestionThree.TokenBucketRateLimiter.resolve
    rcases hL : L.buckets a with _ | bk <;>
      simp only [hL] <;> split <;> simp [hba]
  · unfold QuestionThree.LeakyBucketRateLimiter.allow_request
      QuestionThree.LeakyBucketRateLimiter.resolve
    rcases hM : M.buckets a with _ | bk <;>
      simp only [hM] <;> split <;> simp [hba]

/-- C8 witness: empty registries (capacity 10, rate 2), a request for
client 1 observed by client 2. -/
theorem C8_per_client_isolation_witness :
    ((⟨10, 2, fun _ => none⟩ : QuestionThree.TokenBucketRateLimiter).allow_request
        1 1 0).2.buckets 2 =
      (⟨10, 2, fun _ => none⟩ : QuestionThree.TokenBucketRateLimiter).buckets 2 ∧
    ((⟨10, 2, fun _ => none⟩ : QuestionThree.LeakyBucketRateLimiter).allow_request
        1 0).2.buckets 2 =
      (⟨10, 2, fun _ => none⟩ : QuestionThree.LeakyBucketRateLimiter).buckets 2 :=
  C8_per_client_isolation ⟨10, 2, fun _ => none⟩ ⟨10, 2, fun _ => none⟩ 1 2 1 0 0
    (by norm_num)

theorem QuestionThree.TokenBucketRateLimiter.resolve_present
    {L : QuestionThree.TokenBucketRateLimiter} {cid : ClientId}
    {bk : QuestionThree.TokenBucket} (h : L.buckets cid = some bk) (now : ℚ) :
    L.resolve cid now = (bk, L) := by
  unfold QuestionThree.TokenBucketRateLimiter.resolve
  simp only [h]

theorem QuestionThree.TokenBucketRateLimiter.resolve_absent
    {L : QuestionThree.TokenBucketRateLimiter} {cid : ClientId}
    (h : L.buckets cid = none) (now : ℚ) :
    (L.resolve cid now).2.buckets cid = some (L.resolve cid now).1 ∧
    (L.resolve cid now).1 = QuestionThree.TokenBucket.init L.capacity L.refill_rate now := by
  unfold QuestionThree.TokenBucketRateLimiter.resolve
  simp only [h]
  constructor
  · simp
  · trivial

/-- C9: the check-and-insert of `allow_request` runs inside the registry
lock, so two concurrent first-use calls for the same unseen client
serialize into two `resolve` steps; in either serialization the second
step finds and returns the bucket the first created — the registry is
unchanged, exactly one bucket exists, and it starts with `tokens =
capacity`.  Concretely, with capacity 10 and rate 2, the two callers'
combined 20 immediate unit consumes on the shared bucket yield exactly 10
grants, the configured capacity and not double it. -/
theorem C9_first_use_race (L : QuestionThree.TokenBucketRateLimiter)
    (cid : ClientId) (now1 now2 : ℚ) (h : L.buckets cid = none) :
    ((L.resolve cid now1).2.resolve cid now2).1 = (L.resolve cid now1).1 ∧
    ((L.resolve cid now1).2.resolve cid now2).2 = (L.resolve cid now1).2 ∧
    (L.resolve cid now1).2.buckets cid = some (L.resolve cid now1).1 ∧
    ((L.resolve cid now1).1).tokens = L.capacity ∧
    (QuestionThree.TokenBucket.consumeCount 1 0 (QuestionThree.TokenBucket.init 10 2 0) 20).1
      = 10 := by
  obtain ⟨hsome, hinit⟩ := QuestionThree.TokenBucketRateLimiter.resolve_absent h now1
  have h2 := QuestionThree.TokenBucketRateLimiter.resolve_present hsome now2
  refine ⟨by rw [h2], by rw [h2], hsome, by rw [hinit]; rfl, by with_unfolding_all rfl⟩

/-- C9 witness: an empty registry (capacity 10, rate 2) and client 5
resolved twice at times 0 and 0. -/
theorem C9_first_use_race_witness :
    (((⟨10, 2, fun _ => none⟩ : QuestionThree.TokenBucketRateLimiter).resolve 5 0).2.resolve
        5 0).1 =
      ((⟨10, 2, fun _ => none⟩ : QuestionThree.TokenBucketRateLimiter).resolve 5 0).1 ∧
    (((⟨10, 2, fun _ => none⟩ : QuestionThree.TokenBucketRateLimiter).resolve 5 0).2.resolve
        5 0).2 =
      ((⟨10, 2, fun _ => none⟩ : QuestionThree.TokenBucketRateLimiter).resolve 5 0).2 ∧
    ((⟨10, 2, fun _ => none⟩ : QuestionThree.TokenBucketRateLimiter).resolve 5 0).2.buckets 5 =
      some ((⟨10, 2, fun _ => none⟩ : QuestionThree.TokenBucketRateLimiter).resolve 5 0).1 ∧
    (((⟨10, 2, fun _ => none⟩ : QuestionThree.TokenBucketRateLimiter).resolve 5 0).1).tokens =
      (⟨10, 2, fun _ => none⟩ : QuestionThree.TokenBucketRateLimiter).capacity ∧
    (QuestionThree.TokenBucket.consumeCount 1 0 (QuestionThree.TokenBucket.init 10 2 0) 20).1
      = 10 :=
  C9_first_use_race ⟨10, 2, fun _ => none⟩ 5 0 0 rfl

/-- C10: `get_client_info` for a client with no bucket returns the
unused-bucket default view — `tokens_available = capacity` for the token
limiter, `queue_size = 0` and `is_full = false` for the leaky limiter —
and returns the registry unchanged: no bucket is created or inserted by
the query. -/
theorem C10_client_info_absent (L : QuestionThree.TokenBucketRateLimiter)
    (M : QuestionThree.LeakyBucketRateLimiter) (cid : ClientId) (now mnow : ℚ)
    (hL : L.buckets cid = none) (hM : M.buckets cid = none) :
    L.get_client_info cid now =
      ({ client_id := cid, tokens_available := L.capacity, capacity := L.capacity,
         refill_rate := L.refill_rate }, L) ∧
    M.get_client_info cid mnow =
      ({ client_id := cid, queue_size := 0, capacity := M.capacity,
         leak_rate := M.leak_rate, is_full := false }, M) := by
  constructor
  · unfold QuestionThree.TokenBucketRateLimiter.get_client_info
    simp only [hL]
  · unfold QuestionThree.LeakyBucketRateLimiter.get_client_info
    simp only [hM]

/-- C10 witness: empty registries (token: capacity 10 rate 2; leaky:
capacity 5 rate 2) queried for client 9 at time 3. -/
theorem C10_client_info_absent_witness :
    (⟨10, 2, fun _ => none⟩ : QuestionThree.TokenBucketRateLimiter).get_client_info 9 3 =
      ({ client_id := 9, tokens_available := 10, capacity := 10, refill_rate := 2 },
       (⟨10, 2, fun _ => none⟩ : QuestionThree.TokenBucketRateLimiter)) ∧
    (⟨5, 2, fun _ => none⟩ : QuestionThree.LeakyBucketRateLimiter).get_client_info 9 3 =
      ({ client_id := 9, queue_size := 0, capacity := 5, leak_rate := 2, is_full := false },
       (⟨5, 2, fun _ => none⟩ : QuestionThree.LeakyBucketRateLimiter)) :=
  C10_client_info_absent ⟨10, 2, fun _ => none⟩ ⟨5, 2, fun _ => none⟩ 9 3 3 rfl rfl
